import Mathlib

/-!
Shallow embedding of the zlog package (fpunkt/zlog, file zlog.go): a console
log-formatting front-end over the zerolog engine.  Pure fragments (level
thresholds, label formatters, stack summarisation, open-flag computation)
become Lean functions; the package-global mutable state (SupportColors,
zlogOptions, loglevel, the zerolog global field settings, the global logger
slot) becomes an explicit state record threaded through the operations.
The zerolog engine itself (event buffering, field serialisation, the actual
byte-level write path) is an external collaborator and is not modelled; the
embedding models exactly the sink configurations this package constructs.
-/

namespace Zlog

/-- Go: `type LogOutputFormat = int`. -/
abbrev LogOutputFormat := Int

/-- Go: `FormatColor LogOutputFormat = iota` (value 0). -/
def FormatColor : LogOutputFormat := 0

/-- Go: `FormatBW` (value 1), the monochrome format. -/
def FormatBW : LogOutputFormat := 1

/-- Go: `FormatJson` (value 2). -/
def FormatJson : LogOutputFormat := 2

/-- Go: `FormatUnicode` (value 3). -/
def FormatUnicode : LogOutputFormat := 3

/-- The ASCII escape character that introduces every ANSI escape sequence. -/
def escChar : Char := Char.ofNat 27

/-- Go constant `_intro = "\033[38;5;"`. -/
def introSeq : String := "\x1b[38;5;"

/-- Go constant `ResetColor = "\033[0m"`. -/
def ResetColor : String := "\x1b[0m"

/-- Go constant `Yellow = _intro + "226m"`. -/
def Yellow : String := introSeq ++ "226m"

/-- Go constant `Orange = _intro + "208m"`. -/
def Orange : String := introSeq ++ "208m"

/-- Go constant `Gray = _intro + "246m"`. -/
def Gray : String := introSeq ++ "246m"

/-- Go constant `Green = _intro + "10m"`. -/
def Green : String := introSeq ++ "10m"

/-- Go constant `Red = _intro + "196m"`. -/
def Red : String := introSeq ++ "196m"

/-- Go constant `Cyan = _intro + "45m"`. -/
def Cyan : String := introSeq ++ "45m"

/-- Go constant `Magenta = _intro + "207m"`. -/
def Magenta : String := introSeq ++ "207m"

/-- Go constant `Blue = _intro + "33m"`. -/
def Blue : String := introSeq ++ "33m"

/-- A string contains no ANSI escape sequence when the escape character does
not occur in it. -/
def NoEsc (s : String) : Prop := escChar ∉ s.data

instance (s : String) : Decidable (NoEsc s) := by
  unfold NoEsc
  infer_instance

/-- Model of Go `strings.ToUpper` restricted to the ASCII case mapping
(`Char.toUpper` maps only basic latin letters, exactly the inputs the
formatters receive). -/
def goToUpper (s : String) : String := String.mk (s.data.map Char.toUpper)

/-- The dynamic value handed to a zerolog `Formatter` (`i interface{}`):
a string, the nil interface, or some non-string value together with its
`%s` rendering. -/
inductive LevelArg where
  | str (s : String)
  | nil
  | other (repr : String)
deriving DecidableEq

/-- Result of one level-formatter call: the returned label and the lines the
call printed to standard output.  The Go code prints
`fmt.Printf("ups, unexpeced level %q\n", ll)` for an unrecognised string;
each such one-line diagnostic is recorded here by its argument `ll`. -/
structure FmtResult where
  out : String
  warnings : List String
deriving DecidableEq

/-- Go `formatLevelBW`: hard coded switch over the known severity tags,
uppercased passthrough (after a stdout diagnostic) for unknown strings,
empty string for nil. -/
def formatLevelBW : LevelArg → FmtResult
  | LevelArg.str s =>
    if s = "trace" then { out := "TRC", warnings := [] }
    else if s = "debug" then { out := "DBG", warnings := [] }
    else if s = "info" then { out := "INF", warnings := [] }
    else if s = "warn" then { out := "WRN", warnings := [] }
    else if s = "error" then { out := "ERR", warnings := [] }
    else if s = "fatal" then { out := "FTL", warnings := [] }
    else if s = "panic" then { out := "PNC", warnings := [] }
    else if s = "log" then { out := "LOG", warnings := [] }
    else if s = "" then { out := "nolevel", warnings := [] }
    else { out := goToUpper s, warnings := [s] }
  | LevelArg.nil => { out := "", warnings := [] }
  | LevelArg.other r => { out := goToUpper r, warnings := [] }

/-- Go `formatLevelUnicode`: fixed glyphs for the known severity tags. -/
def formatLevelUnicode : LevelArg → FmtResult
  | LevelArg.str s =>
    if s = "trace" then { out := "🔹", warnings := [] }
    else if s = "debug" then { out := "🔷", warnings := [] }
    else if s = "info" then { out := "🟢", warnings := [] }
    else if s = "warn" then { out := "🔶", warnings := [] }
    else if s = "error" then { out := "❌", warnings := [] }
    else if s = "fatal" then { out := "❌", warnings := [] }
    else if s = "panic" then { out := "❌", warnings := [] }
    else if s = "log" then { out := "LOG", warnings := [] }
    else if s = "" then { out := "nolevel", warnings := [] }
    else { out := goToUpper s, warnings := [s] }
  | LevelArg.nil => { out := "", warnings := [] }
  | LevelArg.other r => { out := goToUpper r, warnings := [] }

/-- Go `formatLevelColor`: reads the package-global `SupportColors` at call
time (passed here explicitly); falls back to the monochrome formatter when
colors are unsupported, otherwise wraps the fixed labels in ANSI colors. -/
def formatLevelColor (supportColors : Bool) (i : LevelArg) : FmtResult :=
  if !supportColors then formatLevelBW i
  else
    match i with
    | LevelArg.str s =>
      if s = "trace" then { out := Gray ++ "TRC" ++ ResetColor, warnings := [] }
      else if s = "debug" then { out := Gray ++ "DBG" ++ ResetColor, warnings := [] }
      else if s = "info" then { out := Green ++ "INF" ++ ResetColor, warnings := [] }
      else if s = "warn" then { out := Orange ++ "WRN" ++ ResetColor, warnings := [] }
      else if s = "error" then { out := Red ++ "ERR" ++ ResetColor, warnings := [] }
      else if s = "fatal" then { out := Red ++ "FTL" ++ ResetColor, warnings := [] }
      else if s = "panic" then { out := Red ++ "PNC" ++ ResetColor, warnings := [] }
      else if s = "log" then { out := "LOG", warnings := [] }
      else if s = "" then { out := "nolevel", warnings := [] }
      else { out := goToUpper s, warnings := [s] }
    | LevelArg.nil => { out := "", warnings := [] }
    | LevelArg.other r => { out := goToUpper r, warnings := [] }

/-- Go `getFormatter`: selects the level-label formatter for an output
format.  The color formatter reads `SupportColors` at render time, so every
formatter is given the render-time flag (the monochrome and unicode
formatters ignore it). -/
def getFormatter (format : LogOutputFormat) : Bool → LevelArg → FmtResult :=
  if format = FormatBW then fun _ => formatLevelBW
  else if format = FormatUnicode then fun _ => formatLevelUnicode
  else if format = FormatColor then formatLevelColor
  else fun _ => formatLevelBW

/-- The strings the formatters recognise in their switch (the seven severity
tags plus the "log" pseudo-tag and the empty no-level tag). -/
def knownLevelTags : List String :=
  ["trace", "debug", "info", "warn", "error", "fatal", "panic", "log", ""]

/-- The zerolog level constants the threshold mapper can return. -/
inductive ZerologLevel where
  | trace
  | debug
  | info
  | warn
  | error
  | fatal
deriving DecidableEq

/-- How verbose a threshold is: the number of severities it lets through
beyond Fatal.  Fatal-only is least verbose, Trace most verbose. -/
def verbosity : ZerologLevel → Int
  | ZerologLevel.fatal => 0
  | ZerologLevel.error => 1
  | ZerologLevel.warn => 2
  | ZerologLevel.info => 3
  | ZerologLevel.debug => 4
  | ZerologLevel.trace => 5

/-- The pure level-to-threshold table inside Go `setlevel`: clamp below at
-3, then switch with Trace as the default case (every level at least 2). -/
def setlevelThreshold (level : Int) : ZerologLevel :=
  let level := if level < -3 then -3 else level
  if level = -3 then ZerologLevel.fatal
  else if level = -2 then ZerologLevel.error
  else if level = -1 then ZerologLevel.warn
  else if level = 0 then ZerologLevel.info
  else if level = 1 then ZerologLevel.debug
  else ZerologLevel.trace

/-- zerolog constant `TimeFormatUnix`, the empty string. -/
def TimeFormatUnix : String := ""

/-- The timestamp formatter installed on a console writer.  The Go closures
call `time.Now` or `time.Since`; the embedding records which closure was
installed.  `none` on the writer means no override (the "default" case of
the Go switch for a caller-supplied template string). -/
inductive TimestampFormatter where
  | relativeSeconds
  | empty
  | wallClock (layout : String)
deriving DecidableEq

/-- The byte destination a writer is bound to. -/
inductive OutDest where
  | stderr
  | file
  | buffer
deriving DecidableEq

/-- Options that can be used to initialize the logger (Go `Options`). -/
structure Options where
  Level : Int
  TimeFormat : String
  Format : LogOutputFormat
  Overwrite : Bool
deriving DecidableEq

/-- The `zerolog.ConsoleWriter` configuration as assembled by this package:
the fields zlog assigns (destination, time format string, level formatter,
timestamp formatter override, field-name and error-field formatters, the
NoColor flag).  The level formatter receives the render-time value of the
`SupportColors` global. -/
structure ConsoleWriter where
  Out : OutDest
  TimeFormat : String
  FormatLevel : Bool → LevelArg → FmtResult
  FormatTimestamp : Option TimestampFormatter
  FormatFieldName : String → String
  FormatErrFieldName : String → String
  FormatErrFieldValue : String → String
  NoColor : Bool

/-- The zerolog package-global field settings this package rewrites. -/
structure GoGlobals where
  TimeFieldFormat : String
  TimestampFieldName : String
  LevelFieldName : String
  MessageFieldName : String
deriving DecidableEq

/-- The file half of a Tee logger: either the raw descriptor (JSON events)
or a console-formatted writer.  `openFlag` records the flag word passed to
`os.OpenFile`. -/
inductive FileSink where
  | raw (openFlag : Nat)
  | formatted (openFlag : Nat) (w : ConsoleWriter)

/-- The writer a logger is bound to: a single console writer, or the
two-sink fan-out built by Tee. -/
inductive LoggerWriter where
  | console (w : ConsoleWriter)
  | multi (console : ConsoleWriter) (file : FileSink)

/-- A zerolog logger as configured by this package: its writer, whether the
timestamp hook is enabled, and its level threshold. -/
structure Logger where
  writer : LoggerWriter
  timestampEnabled : Bool
  level : ZerologLevel

/-- The package-global mutable state: `SupportColors`, the saved
`zlogOptions`, the recorded `loglevel`, the zerolog global field settings,
and the global `log.Logger` slot (`none` means the external zerolog default
that was never replaced). -/
structure ZState where
  supportColors : Bool
  zlogOptions : Options
  loglevel : Int
  globals : GoGlobals
  globalLogger : Option Logger

/-- The zerolog defaults for the global field settings, before this package
rewrites them (`time`, `level`, `message`, RFC3339). -/
def initialGlobals : GoGlobals :=
  { TimeFieldFormat := "2006-01-02T15:04:05Z07:00"
    TimestampFieldName := "time"
    LevelFieldName := "level"
    MessageFieldName := "message" }

/-- The package state at process start: `SupportColors = true` (line 55; the
windows init hook only runs on that platform), zero-valued `zlogOptions`,
`loglevel = 0` (Go zero value of `var loglevel int`), zerolog defaults. -/
def initialZState : ZState :=
  { supportColors := true
    zlogOptions := { Level := 0, TimeFormat := "", Format := FormatColor, Overwrite := false }
    loglevel := 0
    globals := initialGlobals
    globalLogger := none }

/-- Go `zconsoleWriter`: saves the options into the package-global
`zlogOptions` (before any local mutation of `o`), selects the timestamp
formatter and possibly rewrites the local TimeFormat, rewrites the zerolog
global field settings, and assembles the console writer; field-name
coloring is installed only for the color and unicode formats while
`SupportColors` holds at construction time. -/
def zconsoleWriter (o : Options) (st : ZState) : ConsoleWriter × ZState :=
  let st1 : ZState := { st with zlogOptions := o }
  let tf := o.TimeFormat
  let timestampFormat : Option TimestampFormatter :=
    if tf = "s" then some TimestampFormatter.relativeSeconds
    else if tf = "none" then some TimestampFormatter.empty
    else if tf = "" ∨ tf = "default" then some (TimestampFormatter.wallClock "2006-01-02 15:04:05")
    else if tf = "highres" then some (TimestampFormatter.wallClock "2006-01-02 15:04:05.000")
    else none
  let oTimeFormat :=
    if tf = "s" then TimeFormatUnix
    else if tf = "highres" then "2006-01-02 15:04:05.000"
    else tf
  let st2 : ZState :=
    { st1 with
      globals :=
        { TimeFieldFormat := oTimeFormat
          TimestampFieldName := "_zts"
          LevelFieldName := "_zl"
          MessageFieldName := "_zm" } }
  let output : ConsoleWriter :=
    if (o.Format = FormatColor ∨ o.Format = FormatUnicode) ∧ st2.supportColors = true then
      { Out := OutDest.stderr
        TimeFormat := oTimeFormat
        FormatLevel := getFormatter o.Format
        FormatTimestamp := timestampFormat
        FormatFieldName := fun i => Cyan ++ i ++ "=" ++ ResetColor
        FormatErrFieldName := fun _ => Red ++ "error=" ++ ResetColor
        FormatErrFieldValue := fun i => i
        NoColor := false }
    else
      { Out := OutDest.stderr
        TimeFormat := oTimeFormat
        FormatLevel := getFormatter o.Format
        FormatTimestamp := timestampFormat
        FormatFieldName := fun i => i ++ "="
        FormatErrFieldName := fun _ => "error="
        FormatErrFieldValue := fun i => i
        NoColor := false }
  (output, st2)

/-- Go `setlevel`: records the level in the package-global `loglevel` and
returns the logger re-levelled through the clamped switch. -/
def setlevel (logger : Logger) (level : Int) (st : ZState) : Logger × ZState :=
  ({ logger with level := setlevelThreshold level }, { st with loglevel := level })

/-- Go `New`: build the console writer, enable the timestamp hook unless the
time format is "none", and apply the level threshold. -/
def New (o : Options) (st : ZState) : Logger × ZState :=
  let p := zconsoleWriter o st
  let zl : Logger :=
    { writer := LoggerWriter.console p.1
      timestampEnabled := o.TimeFormat ≠ "none"
      level := ZerologLevel.trace }
  setlevel zl o.Level p.2

/-- Go `InitL`: `log.Logger = New(Options{Level: level})` (the other option
fields take their Go zero values). -/
def InitL (level : Int) (st : ZState) : ZState :=
  let p := New { Level := level, TimeFormat := "", Format := FormatColor, Overwrite := false } st
  { p.2 with globalLogger := some p.1 }

/-- Go `SetLevel`: re-level the global logger slot and record the level in
`loglevel`. -/
def SetLevel (level : Int) (st : ZState) : ZState :=
  { st with
    loglevel := level
    globalLogger := st.globalLogger.map fun lg => { lg with level := setlevelThreshold level } }

/-- Go `os` open flags (Linux values): `O_WRONLY`, `O_CREATE`, `O_TRUNC`,
`O_APPEND`. -/
def O_WRONLY : Nat := 1

/-- Go `os.O_CREATE` (Linux `O_CREAT`, octal 100). -/
def O_CREATE : Nat := 64

/-- Go `os.O_TRUNC` (Linux octal 1000). -/
def O_TRUNC : Nat := 512

/-- Go `os.O_APPEND` (Linux octal 2000). -/
def O_APPEND : Nat := 1024

/-- The flag word Tee passes to `os.OpenFile`:
`os.O_CREATE | os.O_WRONLY`, or-ed with `O_APPEND` when Overwrite is set
and with `O_TRUNC` otherwise. -/
def teeOpenFlag (overwrite : Bool) : Nat :=
  let flag := O_CREATE ||| O_WRONLY
  if overwrite then flag ||| O_APPEND else flag ||| O_TRUNC

/-- Go `Tee`: duplicate logging output to a file.  The default options use
the monochrome format; the console half is rebuilt from the saved
`zlogOptions`; for the JSON format the raw descriptor is the second sink;
otherwise a second console writer is built from the saved options (with
`SupportColors` temporarily forced off for the monochrome format), bound to
the file, its level formatter replaced by the monochrome one, and NoColor
set for the monochrome format.  The returned logger is levelled from the
package-global `loglevel`.  A failed open is fatal and is not modelled:
the embedding covers the successful-open path. -/
def Tee (fname : String) (options : List Options) (st : ZState) : Logger × ZState :=
  let o : Options :=
    match options with
    | [] => { Level := 0, TimeFormat := "", Format := FormatBW, Overwrite := false }
    | o :: _ => o
  let flag := teeOpenFlag o.Overwrite
  let p := zconsoleWriter st.zlogOptions st
  let console := p.1
  let st1 := p.2
  let branch : LoggerWriter × ZState :=
    if o.Format = FormatJson then
      (LoggerWriter.multi console (FileSink.raw flag), st1)
    else
      let sc := st1.supportColors
      let st2 := if o.Format = FormatBW then { st1 with supportColors := false } else st1
      let q := zconsoleWriter st2.zlogOptions st2
      let st3 := { q.2 with supportColors := sc }
      let file1 : ConsoleWriter :=
        { q.1 with Out := OutDest.file, FormatLevel := fun _ => formatLevelBW }
      let file2 := if o.Format = FormatBW then { file1 with NoColor := true } else file1
      (LoggerWriter.multi console (FileSink.formatted flag file2), st3)
  let m : Logger :=
    { writer := branch.1, timestampEnabled := true, level := ZerologLevel.trace }
  setlevel m branch.2.loglevel branch.2

/-- The console half of a logger's writer. -/
def Logger.consoleSink (lg : Logger) : ConsoleWriter :=
  match lg.writer with
  | LoggerWriter.console w => w
  | LoggerWriter.multi c _ => c

/-- The file half of a logger's writer, when present. -/
def Logger.fileSink (lg : Logger) : Option FileSink :=
  match lg.writer with
  | LoggerWriter.console _ => none
  | LoggerWriter.multi _ f => some f

/-- The console-formatted file writer of a Tee logger, when present. -/
def Logger.fileWriter (lg : Logger) : Option ConsoleWriter :=
  match lg.fileSink with
  | some (FileSink.formatted _ w) => some w
  | _ => none

/-- The flag word the logger's file was opened with, when present. -/
def Logger.fileOpenFlag (lg : Logger) : Option Nat :=
  match lg.fileSink with
  | some (FileSink.raw f) => some f
  | some (FileSink.formatted f _) => some f
  | none => none

/-- A `zerolog.Context`: the ordered named fields accumulated on a wrapped
error (integer fields recorded by their decimal rendering). -/
structure ZContext where
  fields : List (String × String)
deriving DecidableEq

/-- Go `type Error struct`: a message, the accumulated context, and the
augmentation counter. -/
structure Error where
  Message : String
  C : ZContext
  augment : Int
deriving DecidableEq

/-- Go `NewError`: message plus the (empty) context of the global logger. -/
def NewError (msg : String) : Error :=
  { Message := msg, C := { fields := [] }, augment := 0 }

/-- Go `(e *Error) Augment`: append a uniquely numbered nested field. -/
def Error.Augment (e : Error) (s : String) : Error :=
  let n := e.augment + 1
  { e with
    augment := n
    C := { fields := e.C.fields ++ [("nested#" ++ toString n, s)] } }

/-- Go `(e *Error) Str`: append a named string field. -/
def Error.Str (e : Error) (name value : String) : Error :=
  { e with C := { fields := e.C.fields ++ [(name, value)] } }

/-- Go `(e *Error) Error()`: builds the throwaway sink
`zconsoleWriter(Options{TimeFormat: "none"})` (the other fields take their
Go zero values, so Format is `FormatColor`) and redirects it to an
in-memory buffer.  The returned pair is the configured sink and the state
after the call; the actual byte rendering through the sink is done by the
external engine.  The message text is then passed through
`ErrorErrorResult`. -/
def Error.ErrorSink (e : Error) (st : ZState) : ConsoleWriter × ZState :=
  let p := zconsoleWriter { Level := 0, TimeFormat := "none", Format := FormatColor, Overwrite := false } st
  ({ p.1 with Out := OutDest.buffer }, p.2)

/-- The tail of Go `(e *Error) Error()`: the string the method returns,
`strings.TrimSpace(buf.String())`, as a function of the bytes the external
engine wrote into the buffer. -/
def ErrorErrorResult (bufContent : String) : String := bufContent.trim

/-- One frame of an `errors.StackTrace`: resolvable to a file and line via
`runtime.FuncForPC`, or not (`fn == nil`). -/
inductive Frame where
  | known (file : String) (line : Nat)
  | unresolved
deriving DecidableEq

/-- Model of Go `path.Base`: "." for the empty path, trailing slashes
stripped, "/" when only slashes remain, otherwise everything after the last
slash. -/
def pathBase (p : String) : String :=
  if p = "" then "."
  else
    let l := (p.data.reverse.dropWhile fun c => c == '/').reverse
    if l = [] then "/"
    else String.mk (l.reverse.takeWhile fun c => !(c == '/')).reverse

/-- The frame-rendering loop of Go `ZMarshalStack`: early return of the
bytes built so far once the index exceeds `nlevels`, the fixed diagnostic
when a frame cannot be resolved, otherwise `basename:line` joined by
separators. -/
def zstackLoop (nlevels : Nat) : List Frame → Nat → String → String
  | [], _, b => b
  | frame :: rest, i, b =>
    if i > nlevels then b
    else
      match frame with
      | Frame.unresolved => "Internal zerologformat.306: cannot get fn"
      | Frame.known file line =>
        let b1 := if i > 0 then b ++ " | " else b
        let b2 := b1 ++ pathBase file ++ ":" ++ toString line
        zstackLoop nlevels rest (i + 1) b2

/-- Go `ZMarshalStack` with the drop count (`ZlogDropStack`, default 8) as
an explicit parameter: `none` when the error carries no frame list,
otherwise the loop over the frames with
`nlevels := len(st) - drop` when `len(st) > drop`. -/
def ZMarshalStack (dropStack : Nat) (stackTrace : Option (List Frame)) : Option String :=
  match stackTrace with
  | none => none
  | some st =>
    let n := st.length
    let nlevels := if n > dropStack then n - dropStack else n
    some (zstackLoop nlevels st 0 "")

/-- The default value of Go `var ZlogDropStack = 8`. -/
def ZlogDropStack : Nat := 8

/-- The verbosity of the threshold assigned to a level is the level shifted
by 3 and clamped into the range 0 to 5. -/
theorem verbosity_setlevelThreshold (L : Int) :
    verbosity (setlevelThreshold L) = min (max (L + 3) 0) 5 := by
  by_cases h0 : L < -3
  · have h1 : setlevelThreshold L = ZerologLevel.fatal := by
      unfold setlevelThreshold
      simp [if_pos h0]
    rw [h1]
    simp [verbosity]
    omega
  · unfold setlevelThreshold
    simp only [if_neg h0]
    split_ifs <;> simp [verbosity] <;> omega

/-- C1: the level-threshold mapping (setlevel) is total, monotonic
non-decreasing in verbosity as the integer level L increases, and clamped at
both extremes: every integer maps to exactly one of the six thresholds,
every L at most -3 maps to Fatal-only and every L at least 2 maps to
Trace. -/
theorem C1_setlevel_total_monotonic_clamped :
    (∀ L : Int,
      setlevelThreshold L = ZerologLevel.fatal ∨ setlevelThreshold L = ZerologLevel.error ∨
      setlevelThreshold L = ZerologLevel.warn ∨ setlevelThreshold L = ZerologLevel.info ∨
      setlevelThreshold L = ZerologLevel.debug ∨ setlevelThreshold L = ZerologLevel.trace) ∧
    (∀ L L' : Int, L ≤ L' →
      verbosity (setlevelThreshold L) ≤ verbosity (setlevelThreshold L')) ∧
    (∀ L : Int, L ≤ -3 → setlevelThreshold L = ZerologLevel.fatal) ∧
    (∀ L : Int, 2 ≤ L → setlevelThreshold L = ZerologLevel.trace) := by
  refine ⟨?_, ?_, ?_, ?_⟩
  · intro L
    cases h : setlevelThreshold L <;> simp
  · intro L L' h
    rw [verbosity_setlevelThreshold, verbosity_setlevelThreshold]
    omega
  · intro L h
    have := verbosity_setlevelThreshold L
    cases hc : setlevelThreshold L <;> rw [hc] at this <;> simp [verbosity] at this <;> omega
  · intro L h
    have := verbosity_setlevelThreshold L
    cases hc : setlevelThreshold L <;> rw [hc] at this <;> simp [verbosity] at this <;> omega

/-- Witness for C1 at the concrete levels -5 and 3. -/
theorem C1_witness :
    ((-5 : Int) ≤ (3 : Int) ∧ (-5 : Int) ≤ -3 ∧ (2 : Int) ≤ 3) ∧
    verbosity (setlevelThreshold (-5)) ≤ verbosity (setlevelThreshold 3) ∧
    setlevelThreshold (-5) = ZerologLevel.fatal ∧
    setlevelThreshold 3 = ZerologLevel.trace :=
  ⟨by decide,
   C1_setlevel_total_monotonic_clamped.2.1 (-5) 3 (by decide),
   C1_setlevel_total_monotonic_clamped.2.2.1 (-5) (by decide),
   C1_setlevel_total_monotonic_clamped.2.2.2 3 (by decide)⟩

/-- C7: in monochrome mode each of the seven known severity tags maps
byte-for-byte to its fixed three-letter label, and no label contains the
ANSI escape character. -/
theorem C7_bw_labels_fixed :
    formatLevelBW (LevelArg.str "trace") = { out := "TRC", warnings := [] } ∧
    formatLevelBW (LevelArg.str "debug") = { out := "DBG", warnings := [] } ∧
    formatLevelBW (LevelArg.str "info") = { out := "INF", warnings := [] } ∧
    formatLevelBW (LevelArg.str "warn") = { out := "WRN", warnings := [] } ∧
    formatLevelBW (LevelArg.str "error") = { out := "ERR", warnings := [] } ∧
    formatLevelBW (LevelArg.str "fatal") = { out := "FTL", warnings := [] } ∧
    formatLevelBW (LevelArg.str "panic") = { out := "PNC", warnings := [] } ∧
    (NoEsc "TRC" ∧ NoEsc "DBG" ∧ NoEsc "INF" ∧ NoEsc "WRN" ∧
     NoEsc "ERR" ∧ NoEsc "FTL" ∧ NoEsc "PNC") := by
  decide

/-- Counterexample to C8 as stated: the severities error, fatal and panic
are distinct but receive the same unicode glyph. -/
theorem C8_counterexample :
    formatLevelUnicode (LevelArg.str "error") = formatLevelUnicode (LevelArg.str "fatal") ∧
    formatLevelUnicode (LevelArg.str "fatal") = formatLevelUnicode (LevelArg.str "panic") ∧
    ("error" : String) ≠ "fatal" ∧ ("fatal" : String) ≠ "panic" := by
  decide

/-- C8 amended: in unicode mode each of the seven known severity tags maps
to its own fixed glyph; the glyphs of trace, debug, info and warn are
pairwise distinct, while error, fatal and panic share one glyph. -/
theorem C8_amended_unicode_glyphs :
    formatLevelUnicode (LevelArg.str "trace") = { out := "🔹", warnings := [] } ∧
    formatLevelUnicode (LevelArg.str "debug") = { out := "🔷", warnings := [] } ∧
    formatLevelUnicode (LevelArg.str "info") = { out := "🟢", warnings := [] } ∧
    formatLevelUnicode (LevelArg.str "warn") = { out := "🔶", warnings := [] } ∧
    formatLevelUnicode (LevelArg.str "error") = { out := "❌", warnings := [] } ∧
    formatLevelUnicode (LevelArg.str "fatal") = { out := "❌", warnings := [] } ∧
    formatLevelUnicode (LevelArg.str "panic") = { out := "❌", warnings := [] } ∧
    (("🔹" : String) ≠ "🔷" ∧ ("🔹" : String) ≠ "🟢" ∧ ("🔹" : String) ≠ "🔶" ∧
     ("🔹" : String) ≠ "❌" ∧ ("🔷" : String) ≠ "🟢" ∧ ("🔷" : String) ≠ "🔶" ∧
     ("🔷" : String) ≠ "❌" ∧ ("🟢" : String) ≠ "🔶" ∧ ("🟢" : String) ≠ "❌" ∧
     ("🔶" : String) ≠ "❌") := by
  decide

/-- C6: every severity-label string outside the known tag set makes each of
the three level-label formatters return the uppercased input as a
passthrough label together with exactly one stdout diagnostic line, for
every state of the color-support flag; the formatters are total, so no
input crashes. -/
theorem C6_unknown_tag_passthrough (s : String) (h : s ∉ knownLevelTags) :
    formatLevelBW (LevelArg.str s) = { out := goToUpper s, warnings := [s] } ∧
    formatLevelUnicode (LevelArg.str s) = { out := goToUpper s, warnings := [s] } ∧
    ∀ sc : Bool, formatLevelColor sc (LevelArg.str s) = { out := goToUpper s, warnings := [s] } := by
  simp only [knownLevelTags, List.mem_cons, List.not_mem_nil, or_false, not_or] at h
  obtain ⟨h1, h2, h3, h4, h5, h6, h7, h8, h9⟩ := h
  refine ⟨?_, ?_, ?_⟩
  · simp [formatLevelBW, h1, h2, h3, h4, h5, h6, h7, h8, h9]
  · simp [formatLevelUnicode, h1, h2, h3, h4, h5, h6, h7, h8, h9]
  · intro sc
    cases sc
    · simp [formatLevelColor, formatLevelBW, h1, h2, h3, h4, h5, h6, h7, h8, h9]
    · simp [formatLevelColor, h1, h2, h3, h4, h5, h6, h7, h8, h9]

/-- A formatter input free of the escape character. -/
def argNoEsc : LevelArg → Prop
  | LevelArg.str s => NoEsc s
  | LevelArg.nil => True
  | LevelArg.other r => NoEsc r

/-- A sink configuration is monochrome when none of its formatters can
introduce the escape character, for any render-time color-support flag. -/
def ConsoleWriter.MonochromeSink (w : ConsoleWriter) : Prop :=
  (∀ (sc : Bool) (a : LevelArg), argNoEsc a → NoEsc (w.FormatLevel sc a).out) ∧
  (∀ i, NoEsc i → NoEsc (w.FormatFieldName i)) ∧
  (∀ i, NoEsc i → NoEsc (w.FormatErrFieldName i)) ∧
  (∀ i, NoEsc i → NoEsc (w.FormatErrFieldValue i))

/-- ASCII uppercasing can only produce the escape character from the escape
character itself. -/
theorem toUpper_eq_esc {c : Char} (h : c.toUpper = escChar) : c = escChar := by
  unfold Char.toUpper at h
  dsimp only [] at h
  split at h
  · rename_i hcond
    exfalso
    obtain ⟨h1, h2⟩ := hcond
    generalize hn : c.toNat = n at h1 h2 h
    interval_cases n <;> exact absurd h (by decide)
  · exact h

/-- Uppercasing preserves freedom from the escape character. -/
theorem noEsc_goToUpper {s : String} (h : NoEsc s) : NoEsc (goToUpper s) := by
  unfold NoEsc goToUpper at *
  intro hmem
  rcases List.mem_map.mp hmem with ⟨c, hc, hcu⟩
  exact h (toUpper_eq_esc hcu ▸ hc)

/-- The monochrome level formatter never introduces the escape character. -/
theorem formatLevelBW_noEsc (a : LevelArg) (h : argNoEsc a) :
    NoEsc (formatLevelBW a).out := by
  cases a with
  | str s =>
    simp only [formatLevelBW]
    split_ifs <;> first | decide | exact noEsc_goToUpper h
  | nil => decide
  | other r => exact noEsc_goToUpper (h : NoEsc r)

/-- Appending escape-free strings stays escape-free. -/
theorem noEsc_append {s t : String} (hs : NoEsc s) (ht : NoEsc t) :
    NoEsc (s ++ t) := by
  unfold NoEsc at *
  rw [String.data_append]
  intro hmem
  rcases List.mem_append.mp hmem with h | h
  · exact hs h
  · exact ht h

/-- Building a console writer does not touch the recorded loglevel. -/
theorem zconsoleWriter_loglevel (o : Options) (st : ZState) :
    (zconsoleWriter o st).2.loglevel = st.loglevel := rfl

/-- Building a console writer does not touch the color-support flag. -/
theorem zconsoleWriter_supportColors (o : Options) (st : ZState) :
    (zconsoleWriter o st).2.supportColors = st.supportColors := rfl

/-- Building a console writer saves its options into the package state. -/
theorem zconsoleWriter_zlogOptions (o : Options) (st : ZState) :
    (zconsoleWriter o st).2.zlogOptions = o := rfl

/-- C3: Tee opens the target file with create semantics; with
Overwrite false the flag word carries the truncate flag and not the append
flag, with Overwrite true it carries the append flag and not the truncate
flag; this also holds for the flag recorded on the file sink of every Tee
logger, with and without explicit options. -/
theorem C3_tee_open_flags :
    (∀ (fname : String) (o : Options) (st : ZState),
      (Tee fname [o] st).1.fileOpenFlag = some (teeOpenFlag o.Overwrite)) ∧
    (∀ (fname : String) (st : ZState),
      (Tee fname [] st).1.fileOpenFlag = some (teeOpenFlag false)) ∧
    teeOpenFlag false &&& O_TRUNC = O_TRUNC ∧
    teeOpenFlag false &&& O_APPEND = 0 ∧
    teeOpenFlag true &&& O_APPEND = O_APPEND ∧
    teeOpenFlag true &&& O_TRUNC = 0 ∧
    teeOpenFlag false &&& O_CREATE = O_CREATE ∧
    teeOpenFlag true &&& O_CREATE = O_CREATE ∧
    teeOpenFlag false &&& O_WRONLY = O_WRONLY ∧
    teeOpenFlag true &&& O_WRONLY = O_WRONLY := by
  refine ⟨?_, ?_, by decide, by decide, by decide, by decide, by decide,
    by decide, by decide, by decide⟩
  · intro fname o st
    by_cases h : o.Format = FormatJson <;>
      simp [Tee, setlevel, Logger.fileOpenFlag, Logger.fileSink, h]
  · intro fname st
    rfl

/-- A ten-frame stack trace with distinct file paths, used to evaluate the
stack summariser at the default drop count. -/
def tenFrames : List Frame :=
  [Frame.known "/go/src/app/main0.go" 10, Frame.known "/go/src/app/main1.go" 11,
   Frame.known "/go/src/app/main2.go" 12, Frame.known "/go/src/app/main3.go" 13,
   Frame.known "/go/src/app/main4.go" 14, Frame.known "/go/src/app/main5.go" 15,
   Frame.known "/go/src/app/main6.go" 16, Frame.known "/go/src/app/main7.go" 17,
   Frame.known "/go/src/app/main8.go" 18, Frame.known "/go/src/app/main9.go" 19]

/-- C4 failing input: with the default drop count 8 and a stack of 10
frames, ZMarshalStack renders three frames (basename:line joined by the
separator), one more than the 10 - 8 = 2 frames the claim and the
documentation of ZlogDropStack allow; an error without frame information
still yields the absent result. -/
theorem C4_stack_drop_off_by_one :
    ZMarshalStack ZlogDropStack (some tenFrames)
      = some "main0.go:10 | main1.go:11 | main2.go:12" ∧
    tenFrames.length = 10 ∧
    ZlogDropStack = 8 ∧
    ZMarshalStack ZlogDropStack none = none := by
  refine ⟨?_, by decide, by decide, rfl⟩
  decide

/-- C9: calling Error() on a wrapped error overwrites the saved package
options with Level 0, TimeFormat "none", the color format and Overwrite
false, rewrites the zerolog global field settings, and a Tee call made on
the resulting state builds its console sink from exactly these clobbered
options. -/
theorem C9_error_clobbers_saved_options :
    ∀ (e : Error) (st : ZState) (fname : String) (opts : List Options),
      (e.ErrorSink st).2.zlogOptions =
        { Level := 0, TimeFormat := "none", Format := FormatColor, Overwrite := false } ∧
      (e.ErrorSink st).2.globals =
        { TimeFieldFormat := "none", TimestampFieldName := "_zts",
          LevelFieldName := "_zl", MessageFieldName := "_zm" } ∧
      (Tee fname opts (e.ErrorSink st).2).1.consoleSink =
        (zconsoleWriter
          { Level := 0, TimeFormat := "none", Format := FormatColor, Overwrite := false }
          (e.ErrorSink st).2).1 := by
  intro e st fname opts
  refine ⟨rfl, rfl, ?_⟩
  cases opts with
  | nil => rfl
  | cons o rest =>
    by_cases h : o.Format = FormatJson <;>
      simp [Tee, setlevel, Logger.consoleSink, h, Error.ErrorSink, zconsoleWriter_zlogOptions]

/-- C10: Tee ignores the Level field of the options it is passed; the
returned logger's threshold is derived from the package-global loglevel,
which is the level most recently recorded by New, InitL or SetLevel, and is
0 in the initial state. -/
theorem C10_tee_ignores_options_level :
    (∀ (fname : String) (o : Options) (st : ZState),
      (Tee fname [o] st).1.level = setlevelThreshold st.loglevel) ∧
    (∀ (fname : String) (st : ZState),
      (Tee fname [] st).1.level = setlevelThreshold st.loglevel) ∧
    (∀ (fname : String) (o : Options) (L : Int) (st : ZState),
      (Tee fname [{ o with Level := L }] st).1 = (Tee fname [o] st).1) ∧
    (∀ (o : Options) (st : ZState), (New o st).2.loglevel = o.Level) ∧
    (∀ (L : Int) (st : ZState), (SetLevel L st).loglevel = L) ∧
    (∀ (L : Int) (st : ZState), (InitL L st).loglevel = L) ∧
    initialZState.loglevel = 0 := by
  refine ⟨?_, ?_, ?_, fun o st => rfl, fun L st => rfl, fun L st => rfl, rfl⟩
  · intro fname o st
    by_cases h : o.Format = FormatJson
    · simp [Tee, setlevel, h, zconsoleWriter_loglevel]
    · by_cases h2 : o.Format = FormatBW
      · simp [Tee, setlevel, h, h2, FormatBW, FormatJson, zconsoleWriter_loglevel]
      · simp only [FormatJson] at h
        simp only [FormatBW] at h2
        simp [Tee, setlevel, FormatBW, FormatJson, h, h2, zconsoleWriter_loglevel]
  · intro fname st
    rfl
  · intro fname o L st
    rfl

/-- Counterexample to C2 as stated: a Tee call with the Color format, made
while color support is on and the saved console options use the Color
format, installs a cyan field-name formatter on the file sink, so the file
sink's output does contain color escape sequences. -/
theorem C2_counterexample :
    ((Tee "log.txt"
        [{ Level := 0, TimeFormat := "", Format := FormatColor, Overwrite := false }]
        initialZState).1.fileWriter.map fun w => w.FormatFieldName "x")
      = some (Cyan ++ "x" ++ "=" ++ ResetColor) ∧
    initialZState.supportColors = true ∧
    ¬ NoEsc (Cyan ++ "x" ++ "=" ++ ResetColor) := by
  refine ⟨rfl, rfl, ?_⟩
  decide

/-- C2 amended: for every non-JSON Tee call, the file sink's level-label
formatter is replaced by the monochrome one, the console sink is the one
built from the saved options (unaffected by the Tee options), and the
color-support flag is restored after the call; the full monochrome forcing
(plain field formatters, NoColor, no escape sequences from any formatter,
regardless of the live color-support setting) happens exactly when the Tee
Format is the monochrome one. -/
theorem C2_amended_tee_file_sink (fname : String) (o : Options) (st : ZState)
    (h : o.Format ≠ FormatJson) :
    (Tee fname [o] st).1.consoleSink = (zconsoleWriter st.zlogOptions st).1 ∧
    (Tee fname [o] st).2.supportColors = st.supportColors ∧
    ((Tee fname [o] st).1.fileWriter.map fun w => w.FormatLevel)
      = some (fun _ => formatLevelBW) ∧
    (o.Format = FormatBW →
      ((Tee fname [o] st).1.fileWriter.map fun w => w.NoColor) = some true ∧
      (∀ i, ((Tee fname [o] st).1.fileWriter.map fun w => w.FormatFieldName i)
        = some (i ++ "=")) ∧
      (∀ i, ((Tee fname [o] st).1.fileWriter.map fun w => w.FormatErrFieldName i)
        = some "error=") ∧
      (∀ i, ((Tee fname [o] st).1.fileWriter.map fun w => w.FormatErrFieldValue i)
        = some i) ∧
      (∀ w, (Tee fname [o] st).1.fileWriter = some w → w.MonochromeSink)) := by
  by_cases h2 : o.Format = FormatBW
  · refine ⟨?_, ?_, ?_, fun _ => ⟨?_, fun i => ?_, fun i => ?_, fun i => ?_, ?_⟩⟩
    · simp [Tee, setlevel, Logger.consoleSink, h, h2, FormatBW, FormatJson]
    · simp [Tee, setlevel, h, h2, FormatBW, FormatJson, zconsoleWriter_supportColors]
    · simp [Tee, setlevel, Logger.fileWriter, Logger.fileSink, h, h2, FormatBW, FormatJson]
    · simp [Tee, setlevel, Logger.fileWriter, Logger.fileSink, h, h2, FormatBW, FormatJson,
        zconsoleWriter, zconsoleWriter_zlogOptions]
    · simp [Tee, setlevel, Logger.fileWriter, Logger.fileSink, h, h2, FormatBW, FormatJson,
        zconsoleWriter, zconsoleWriter_zlogOptions]
    · simp [Tee, setlevel, Logger.fileWriter, Logger.fileSink, h, h2, FormatBW, FormatJson,
        zconsoleWriter, zconsoleWriter_zlogOptions]
    · simp [Tee, setlevel, Logger.fileWriter, Logger.fileSink, h, h2, FormatBW, FormatJson,
        zconsoleWriter, zconsoleWriter_zlogOptions]
    · intro w hw
      have hlevel : w.FormatLevel = fun _ => formatLevelBW := by
        have h3 : ((Tee fname [o] st).1.fileWriter.map fun w => w.FormatLevel)
            = some (fun _ => formatLevelBW) := by
          simp [Tee, setlevel, Logger.fileWriter, Logger.fileSink, h, h2, FormatBW, FormatJson]
        rw [hw] at h3
        simpa using h3
      have hfield : ∀ i, w.FormatFieldName i = i ++ "=" := by
        intro i
        have h3 : ((Tee fname [o] st).1.fileWriter.map fun w => w.FormatFieldName i)
            = some (i ++ "=") := by
          simp [Tee, setlevel, Logger.fileWriter, Logger.fileSink, h, h2, FormatBW, FormatJson,
            zconsoleWriter, zconsoleWriter_zlogOptions]
        rw [hw] at h3
        simpa using h3
      have herrname : ∀ i, w.FormatErrFieldName i = "error=" := by
        intro i
        have h3 : ((Tee fname [o] st).1.fileWriter.map fun w => w.FormatErrFieldName i)
            = some "error=" := by
          simp [Tee, setlevel, Logger.fileWriter, Logger.fileSink, h, h2, FormatBW, FormatJson,
            zconsoleWriter, zconsoleWriter_zlogOptions]
        rw [hw] at h3
        simpa using h3
      have herrval : ∀ i, w.FormatErrFieldValue i = i := by
        intro i
        have h3 : ((Tee fname [o] st).1.fileWriter.map fun w => w.FormatErrFieldValue i)
            = some i := by
          simp [Tee, setlevel, Logger.fileWriter, Logger.fileSink, h, h2, FormatBW, FormatJson,
            zconsoleWriter, zconsoleWriter_zlogOptions]
        rw [hw] at h3
        simpa using h3
      refine ⟨?_, ?_, ?_, ?_⟩
      · intro sc a ha
        rw [hlevel]
        exact formatLevelBW_noEsc a ha
      · intro i hi
        rw [hfield i]
        exact noEsc_append hi (by decide)
      · intro i hi
        rw [herrname i]
        decide
      · intro i hi
        rw [herrval i]
        exact hi
  · refine ⟨?_, ?_, ?_, fun hbw => absurd hbw h2⟩
    · simp [Tee, setlevel, Logger.consoleSink, h, h2]
    · simp [Tee, setlevel, h, h2, zconsoleWriter_supportColors]
    · simp [Tee, setlevel, Logger.fileWriter, Logger.fileSink, h, h2]

/-- Witness for C2 amended at a concrete monochrome Tee call on the initial
state. -/
theorem C2_amended_witness :
    (({ Level := 0, TimeFormat := "", Format := FormatBW, Overwrite := false } : Options).Format
      ≠ FormatJson) ∧
    (Tee "log.txt" [{ Level := 0, TimeFormat := "", Format := FormatBW, Overwrite := false }]
        initialZState).1.consoleSink
      = (zconsoleWriter initialZState.zlogOptions initialZState).1 ∧
    ((Tee "log.txt" [{ Level := 0, TimeFormat := "", Format := FormatBW, Overwrite := false }]
        initialZState).1.fileWriter.map fun w => w.FormatFieldName "x") = some "x=" ∧
    ((Tee "log.txt" [{ Level := 0, TimeFormat := "", Format := FormatBW, Overwrite := false }]
        initialZState).1.fileWriter.map fun w => w.NoColor) = some true := by
  have hc := C2_amended_tee_file_sink "log.txt"
    { Level := 0, TimeFormat := "", Format := FormatBW, Overwrite := false }
    initialZState (by decide)
  exact ⟨by decide, hc.1, (hc.2.2.2 rfl).2.1 "x", (hc.2.2.2 rfl).1⟩

/-- Counterexample to C5 as stated: with color support on, the throwaway
sink built by Error() installs a cyan field-name formatter, so the rendered
output is not monochrome independent of the process-wide color-support
flag. -/
theorem C5_counterexample :
    initialZState.supportColors = true ∧
    ¬ NoEsc (((NewError "Test Message").ErrorSink initialZState).1.FormatFieldName "file") := by
  refine ⟨rfl, ?_⟩
  decide

/-- C5 amended: Error() formats the message through a throwaway sink that
is timestamp-suppressed and buffer-bound and returns the whitespace-trimmed
rendered text; the sink uses the color output format, so its formatters are
monochrome exactly when the process-wide color-support flag is off at the
time of the call. -/
theorem C5_amended_error_sink (e : Error) (st : ZState) :
    ((e.ErrorSink st).1.FormatTimestamp = some TimestampFormatter.empty ∧
     (e.ErrorSink st).1.Out = OutDest.buffer) ∧
    (st.supportColors = false →
      (∀ i, (e.ErrorSink st).1.FormatFieldName i = i ++ "=") ∧
      (∀ i, (e.ErrorSink st).1.FormatErrFieldName i = "error=") ∧
      (∀ i, (e.ErrorSink st).1.FormatErrFieldValue i = i) ∧
      (∀ a, (e.ErrorSink st).1.FormatLevel st.supportColors a = formatLevelBW a) ∧
      (∀ a, argNoEsc a →
        NoEsc ((e.ErrorSink st).1.FormatLevel st.supportColors a).out)) ∧
    (∀ bufContent, ErrorErrorResult bufContent = bufContent.trim) := by
  refine ⟨?_, ?_, fun _ => rfl⟩
  · constructor
    · by_cases hc : st.supportColors <;>
        simp [Error.ErrorSink, zconsoleWriter, hc, FormatColor, FormatUnicode, FormatBW]
    · by_cases hc : st.supportColors <;>
        simp [Error.ErrorSink, zconsoleWriter, hc, FormatColor, FormatUnicode, FormatBW]
  · intro hc
    have hsink : (e.ErrorSink st).1.FormatFieldName = (fun i => i ++ "=") ∧
        (e.ErrorSink st).1.FormatErrFieldName = (fun _ => "error=") ∧
        (e.ErrorSink st).1.FormatErrFieldValue = (fun i => i) ∧
        (e.ErrorSink st).1.FormatLevel = getFormatter FormatColor := by
      simp [Error.ErrorSink, zconsoleWriter, hc]
    have hcolor : getFormatter FormatColor = formatLevelColor := by
      simp [getFormatter, FormatColor, FormatBW, FormatUnicode]
    refine ⟨fun i => by rw [hsink.1], fun i => by rw [hsink.2.1],
      fun i => by rw [hsink.2.2.1], fun a => ?_, fun a ha => ?_⟩
    · rw [hsink.2.2.2, hcolor, hc]
      rfl
    · rw [hsink.2.2.2, hcolor, hc]
      exact formatLevelBW_noEsc a ha

/-- Witness for C5 amended at a concrete state with color support off. -/
theorem C5_amended_witness :
    ({ initialZState with supportColors := false } : ZState).supportColors = false ∧
    ((NewError "m").ErrorSink { initialZState with supportColors := false }).1.FormatTimestamp
      = some TimestampFormatter.empty ∧
    ((NewError "m").ErrorSink { initialZState with supportColors := false }).1.FormatFieldName "k"
      = "k=" ∧
    ((NewError "m").ErrorSink { initialZState with supportColors := false }).1.FormatLevel
        ({ initialZState with supportColors := false } : ZState).supportColors
        (LevelArg.str "info")
      = formatLevelBW (LevelArg.str "info") ∧
    ErrorErrorResult " x " = (" x " : String).trim := by
  have hc := C5_amended_error_sink (NewError "m") { initialZState with supportColors := false }
  exact ⟨rfl, hc.1.1, (hc.2.1 rfl).1 "k", (hc.2.1 rfl).2.2.2.1 (LevelArg.str "info"),
    hc.2.2 " x "⟩

/-- Witness for C6 at the concrete unknown tag "verbose". -/
theorem C6_witness :
    ("verbose" ∉ knownLevelTags) ∧
    formatLevelBW (LevelArg.str "verbose") = { out := "VERBOSE", warnings := ["verbose"] } ∧
    formatLevelUnicode (LevelArg.str "verbose") = { out := "VERBOSE", warnings := ["verbose"] } ∧
    formatLevelColor true (LevelArg.str "verbose") = { out := "VERBOSE", warnings := ["verbose"] } := by
  have h := C6_unknown_tag_passthrough "verbose" (by decide)
  refine ⟨by decide, ?_, ?_, ?_⟩
  · rw [h.1]; decide
  · rw [h.2.1]; decide
  · rw [h.2.2 true]; decide

end Zlog

